import Mathlib

/-!
# Function-Monitor: verification of the instrumentation wrapper core

A shallow embedding of the `function_monitor` package: the `MonitorConfig`
configuration model with layered resolution and atomic `update`, the
`ExecutionResult` envelope with its `create_success` / `create_error`
constructors, and the `FunctionMonitor` wrapper protocol (input validation,
resource sampling with graceful degradation, callable invocation,
output validation, envelope construction, raw-result unwrapping).

The package modules `function_monitor/models.py`, `function_monitor/config.py`
and `function_monitor/monitor.py` are not present in the source tree (only
their tests, examples and packaging are), so the definitions below are
modelled from the specification's words (sections 3, 4.1, 4.2) and the
observable behaviour pinned down by `tests/test_models.py`,
`tests/test_config.py` and `tests/test_monitor.py`.

Modelling conventions:
* A Python callable that may raise is `α → Except String ρ`; `.error msg`
  models an exception whose message is `msg`.
* The opaque resource sampler is represented by the outcome of each of its
  samples: `Option ResourceSnapshot`, with `none` modelling sampler failure.
* Floating-point durations and CPU percentages carry no arithmetic in any
  claim, so they are represented by `Nat` stand-in values threaded through
  unchanged.
* In-place mutation of a configuration object is modelled by explicit state
  passing: an operation returns the receiver's next state.
-/

namespace FunctionMonitor

/-- Modelled from the spec: log severity enum of `MonitorConfig.logLevel`
(section 3: `logLevel: enum{DEBUG,INFO,WARN,ERROR}`); the missing
`function_monitor/config.py` stores the integer levels 10/20/30/40. -/
inductive LogLevel where
  | debug
  | info
  | warn
  | error
deriving DecidableEq, Repr

/-- Modelled from the spec: the resolved per-instance configuration record of
the missing `function_monitor/config.py` (spec section 3, `MonitorConfig`). -/
structure MonitorConfig where
  validateInput : Bool
  validateOutput : Bool
  logExecution : Bool
  returnRawResult : Bool
  logLevel : LogLevel
  logToFile : Bool
  logFilePath : Option String
  enableMemoryMonitoring : Bool
  enableCpuMonitoring : Bool
deriving DecidableEq, Repr

namespace MonitorConfig

/-- Modelled from the spec: `fromDefaults()` of the missing
`function_monitor/config.py` — all fields at documented defaults
(spec section 4.1). -/
def fromDefaults : MonitorConfig where
  validateInput := true
  validateOutput := true
  logExecution := true
  returnRawResult := false
  logLevel := LogLevel.info
  logToFile := false
  logFilePath := none
  enableMemoryMonitoring := true
  enableCpuMonitoring := true

end MonitorConfig

/-- Modelled from the spec: a partial configuration layer (instance-level
constructor arguments or call-level keyword overrides); a `none` field is
"not explicitly provided" (spec sections 3 and 4.1, `merge`). -/
structure PartialConfig where
  validateInput : Option Bool := none
  validateOutput : Option Bool := none
  logExecution : Option Bool := none
  returnRawResult : Option Bool := none
  logLevel : Option LogLevel := none
  logToFile : Option Bool := none
  logFilePath : Option (Option String) := none
  enableMemoryMonitoring : Option Bool := none
  enableCpuMonitoring : Option Bool := none
deriving DecidableEq, Repr

/-- Modelled from the spec: `merge(base, override)` of the missing
`function_monitor/config.py` — field-wise override, a later layer replacing
exactly the fields it explicitly provides (spec section 4.1). -/
def merge (base : MonitorConfig) (o : PartialConfig) : MonitorConfig where
  validateInput := o.validateInput.getD base.validateInput
  validateOutput := o.validateOutput.getD base.validateOutput
  logExecution := o.logExecution.getD base.logExecution
  returnRawResult := o.returnRawResult.getD base.returnRawResult
  logLevel := o.logLevel.getD base.logLevel
  logToFile := o.logToFile.getD base.logToFile
  logFilePath := o.logFilePath.getD base.logFilePath
  enableMemoryMonitoring := o.enableMemoryMonitoring.getD base.enableMemoryMonitoring
  enableCpuMonitoring := o.enableCpuMonitoring.getD base.enableCpuMonitoring

/-- Modelled from the spec: effective-configuration resolution for one
invocation, strictly default → instance → call (spec sections 3 and 4.2
step 1). -/
def resolve (d : MonitorConfig) (inst callSite : PartialConfig) : MonitorConfig :=
  merge (merge d inst) callSite

/-- The empty override layer: provides no field. -/
def emptyLayer : PartialConfig := {}

/-- The names of the recognized configuration fields (spec section 3). -/
inductive FieldName where
  | validateInput
  | validateOutput
  | logExecution
  | returnRawResult
  | logLevel
  | logToFile
  | logFilePath
  | enableMemoryMonitoring
  | enableCpuMonitoring
deriving DecidableEq, Repr

/-- The value a configuration field can hold, as a single dynamic type. -/
inductive ConfigValue where
  | bool (b : Bool)
  | level (l : LogLevel)
  | path (p : Option String)
deriving DecidableEq, Repr

/-- Read one field of a configuration by name. -/
def getField (c : MonitorConfig) : FieldName → ConfigValue
  | FieldName.validateInput => ConfigValue.bool c.validateInput
  | FieldName.validateOutput => ConfigValue.bool c.validateOutput
  | FieldName.logExecution => ConfigValue.bool c.logExecution
  | FieldName.returnRawResult => ConfigValue.bool c.returnRawResult
  | FieldName.logLevel => ConfigValue.level c.logLevel
  | FieldName.logToFile => ConfigValue.bool c.logToFile
  | FieldName.logFilePath => ConfigValue.path c.logFilePath
  | FieldName.enableMemoryMonitoring => ConfigValue.bool c.enableMemoryMonitoring
  | FieldName.enableCpuMonitoring => ConfigValue.bool c.enableCpuMonitoring

/-- Modelled from the spec: one key/value pair of the mapping passed to
`MonitorConfig.update` in the missing `function_monitor/config.py`.
A recognized key carries its typed value; `unknownKey k` is an entry whose
key `k` is not a recognized configuration field (spec section 4.1). -/
inductive UpdateEntry where
  | validateInput (b : Bool)
  | validateOutput (b : Bool)
  | logExecution (b : Bool)
  | returnRawResult (b : Bool)
  | logLevel (l : LogLevel)
  | logToFile (b : Bool)
  | logFilePath (p : Option String)
  | enableMemoryMonitoring (b : Bool)
  | enableCpuMonitoring (b : Bool)
  | unknownKey (k : String)
deriving DecidableEq, Repr

namespace UpdateEntry

/-- Whether an entry's key is unrecognized. -/
def isUnknown : UpdateEntry → Bool
  | unknownKey _ => true
  | _ => false

/-- The configuration field an entry names (`none` for an unknown key). -/
def target : UpdateEntry → Option FieldName
  | validateInput _ => some FieldName.validateInput
  | validateOutput _ => some FieldName.validateOutput
  | logExecution _ => some FieldName.logExecution
  | returnRawResult _ => some FieldName.returnRawResult
  | logLevel _ => some FieldName.logLevel
  | logToFile _ => some FieldName.logToFile
  | logFilePath _ => some FieldName.logFilePath
  | enableMemoryMonitoring _ => some FieldName.enableMemoryMonitoring
  | enableCpuMonitoring _ => some FieldName.enableCpuMonitoring
  | unknownKey _ => none

/-- The value an entry supplies (a dummy for an unknown key, never applied). -/
def supplied : UpdateEntry → ConfigValue
  | validateInput b => ConfigValue.bool b
  | validateOutput b => ConfigValue.bool b
  | logExecution b => ConfigValue.bool b
  | returnRawResult b => ConfigValue.bool b
  | logLevel l => ConfigValue.level l
  | logToFile b => ConfigValue.bool b
  | logFilePath p => ConfigValue.path p
  | enableMemoryMonitoring b => ConfigValue.bool b
  | enableCpuMonitoring b => ConfigValue.bool b
  | unknownKey _ => ConfigValue.bool false

end UpdateEntry

/-- Apply one recognized override to a configuration (an unknown key, which
`update` rejects before applying anything, is a no-op here). -/
def applyEntry (c : MonitorConfig) : UpdateEntry → MonitorConfig
  | UpdateEntry.validateInput b => { c with validateInput := b }
  | UpdateEntry.validateOutput b => { c with validateOutput := b }
  | UpdateEntry.logExecution b => { c with logExecution := b }
  | UpdateEntry.returnRawResult b => { c with returnRawResult := b }
  | UpdateEntry.logLevel l => { c with logLevel := l }
  | UpdateEntry.logToFile b => { c with logToFile := b }
  | UpdateEntry.logFilePath p => { c with logFilePath := p }
  | UpdateEntry.enableMemoryMonitoring b => { c with enableMemoryMonitoring := b }
  | UpdateEntry.enableCpuMonitoring b => { c with enableCpuMonitoring := b }
  | UpdateEntry.unknownKey _ => c

/-- The first unrecognized key occurring in an update mapping, if any. -/
def firstUnknown : List UpdateEntry → Option String
  | [] => none
  | UpdateEntry.unknownKey k :: _ => some k
  | _ :: es => firstUnknown es

/-- Modelled from the spec: the configuration-error taxonomy of the missing
`function_monitor/config.py`; an unknown update key raises
`ValueError("Unknown configuration key: ...")` per
`tests/test_config.py::test_config_update_invalid_key` (spec section 4.1). -/
inductive ConfigError where
  | unknownConfigurationKey (k : String)
deriving DecidableEq, Repr

/-- Modelled from the spec: `update(fields)` of the missing
`function_monitor/config.py` — applies a partial set of named overrides;
fails naming the unknown key if any key is unrecognized, leaving the
receiver unmodified (atomic all-or-nothing, spec section 4.1). Mutation of
the receiver is modelled by returning its next state alongside the error. -/
def MonitorConfig.update (c : MonitorConfig) (fields : List UpdateEntry) :
    MonitorConfig × Option ConfigError :=
  match firstUnknown fields with
  | some k => (c, some (ConfigError.unknownConfigurationKey k))
  | none => (fields.foldl applyEntry c, none)

/-- The value the last entry of an update mapping assigns to a field, if any
entry names it at all. -/
def lastAssign : List UpdateEntry → FieldName → Option ConfigValue
  | [], _ => none
  | e :: es, f =>
      match lastAssign es f with
      | some v => some v
      | none => if e.target = some f then some e.supplied else none

/-- Modelled from the spec: `ResourceSnapshot` of the missing resource-sampler
glue — `{memoryBytes, cpuPercent}` (spec section 3); the CPU percentage is a
`Nat` stand-in since no claim computes with it. -/
structure ResourceSnapshot where
  memoryBytes : Nat
  cpuPercent : Nat
deriving DecidableEq, Repr

/-- The zero snapshot substituted on sampler failure (spec section 3). -/
def zeroSnapshot : ResourceSnapshot := ⟨0, 0⟩

/-- Modelled from the spec: the `memory_usage` sub-record of the missing
`function_monitor/models.py` (`MemoryUsage` in `tests/test_models.py`):
`{before, after, peak, delta}` with `delta = after - before` stored signed
(spec section 3). -/
structure MemoryUsage where
  before : Nat
  after : Nat
  peak : Nat
  delta : Int
deriving DecidableEq, Repr

/-- Execution status of an envelope (spec section 3: `enum{success, error}`). -/
inductive Status where
  | success
  | error
deriving DecidableEq, Repr

/-- Modelled from the spec: `ExecutionResult` of the missing
`function_monitor/models.py` — the immutable per-call output record
(spec section 3). `ρ` is the wrapped callable's result type; duration and
CPU are `Nat` stand-ins for the float fields. -/
structure ExecutionResult (ρ : Type) where
  status : Status
  result : Option ρ
  errors : Option (List String)
  executionTime : Nat
  memoryUsage : MemoryUsage
  cpuUsage : Nat
  functionName : String
  timestamp : String
deriving DecidableEq, Repr

namespace ExecutionResult

/-- Modelled from the spec: `ExecutionResult.create_success` of the missing
`function_monitor/models.py`, per `tests/test_models.py::test_create_success` —
status `success`, the given result, no errors. -/
def createSuccess (v : ρ) (t : Nat) (mu : MemoryUsage) (cpu : Nat)
    (name ts : String) : ExecutionResult ρ where
  status := Status.success
  result := some v
  errors := none
  executionTime := t
  memoryUsage := mu
  cpuUsage := cpu
  functionName := name
  timestamp := ts

/-- Modelled from the spec: `ExecutionResult.create_error` of the missing
`function_monitor/models.py`, per `tests/test_models.py::test_create_error` —
status `error`, no result, the given error messages. -/
def createError (errs : List String) (t : Nat) (mu : MemoryUsage) (cpu : Nat)
    (name ts : String) : ExecutionResult ρ where
  status := Status.error
  result := none
  errors := some errs
  executionTime := t
  memoryUsage := mu
  cpuUsage := cpu
  functionName := name
  timestamp := ts

/-- The envelope invariant claimed in spec section 3: status is `error` iff
the errors field is non-null and non-empty, and result and errors are never
both present. -/
def invariant (r : ExecutionResult ρ) : Prop :=
  (r.status = Status.error ↔ ∃ l, r.errors = some l ∧ l ≠ []) ∧
  ¬(r.result.isSome ∧ r.errors.isSome)

instance (r : ExecutionResult ρ) [DecidableEq ρ] : Decidable r.invariant := by
  unfold invariant
  exact instDecidableAnd

end ExecutionResult

/-- Modelled from the spec: everything one monitored invocation observes from
its collaborators — the arguments, the Validator verdicts for the declared
input schemas and the output schema (`[]` means pass, spec section 4.4), the
wrapped callable (`.error msg` models a raised exception with message `msg`),
the sampler outcomes for the before/after/peak samples (`none` models sampler
failure, spec section 4.3), the measured duration and the identity strings. -/
structure CallEnv (α ρ : Type) where
  args : α
  inputCheck : α → List String
  outputCheck : ρ → List String
  call : α → Except String ρ
  sampleBefore : Option ResourceSnapshot
  sampleAfter : Option ResourceSnapshot
  samplePeak : Option Nat
  elapsed : Nat
  functionName : String
  timestamp : String

/-- Take one resource snapshot per spec section 4.2 step 3: sample only if
memory or CPU monitoring is enabled, and substitute the zero snapshot on
sampler failure (never abort the call). -/
def takeSnapshot (cfg : MonitorConfig) (s : Option ResourceSnapshot) : ResourceSnapshot :=
  if cfg.enableMemoryMonitoring || cfg.enableCpuMonitoring then s.getD zeroSnapshot
  else zeroSnapshot

/-- Take the interval-peak memory sample with the same failure tolerance. -/
def takePeak (cfg : MonitorConfig) (p : Option Nat) : Nat :=
  if cfg.enableMemoryMonitoring || cfg.enableCpuMonitoring then p.getD 0
  else 0

/-- Assemble the `memory_usage` record: `delta = after - before`, signed
(spec section 3). -/
def buildMemoryUsage (b a : ResourceSnapshot) (peak : Nat) : MemoryUsage where
  before := b.memoryBytes
  after := a.memoryBytes
  peak := peak
  delta := (a.memoryBytes : Int) - (b.memoryBytes : Int)

/-- Modelled from the spec: the envelope the missing
`function_monitor/monitor.py` wrapper constructs for one invocation
(spec section 4.2 steps 2-7): input validation short-circuits execution;
otherwise sample, invoke, sample, classify the outcome (execution error,
output-validation error, or success) and build the `ExecutionResult`. -/
def monitorResult (cfg : MonitorConfig) (env : CallEnv α ρ) : ExecutionResult ρ :=
  let inputErrs := if cfg.validateInput then env.inputCheck env.args else []
  if inputErrs = [] then
    let before := takeSnapshot cfg env.sampleBefore
    match env.call env.args with
    | Except.error msg =>
        let after := takeSnapshot cfg env.sampleAfter
        let mu := buildMemoryUsage before after (takePeak cfg env.samplePeak)
        ExecutionResult.createError [msg] env.elapsed mu after.cpuPercent
          env.functionName env.timestamp
    | Except.ok v =>
        let after := takeSnapshot cfg env.sampleAfter
        let mu := buildMemoryUsage before after (takePeak cfg env.samplePeak)
        let outErrs := if cfg.validateOutput then env.outputCheck v else []
        if outErrs = [] then
          ExecutionResult.createSuccess v env.elapsed mu after.cpuPercent
            env.functionName env.timestamp
        else
          ExecutionResult.createError outErrs env.elapsed mu after.cpuPercent
            env.functionName env.timestamp
  else
    ExecutionResult.createError inputErrs 0
      (buildMemoryUsage zeroSnapshot zeroSnapshot 0) 0 env.functionName env.timestamp

/-- What the wrapper hands back to its caller: the bare value in raw-result
mode on success, the structured envelope otherwise. -/
inductive MonitorReturn (ρ : Type) where
  | raw (v : ρ)
  | envelope (r : ExecutionResult ρ)
deriving DecidableEq, Repr

/-- Modelled from the spec: the return step of the missing
`function_monitor/monitor.py` wrapper (spec section 4.2 step 9): if
`returnRawResult` is true return the result directly on success; on error
raw-result mode still returns the structured envelope. -/
def monitorCall (cfg : MonitorConfig) (env : CallEnv α ρ) : MonitorReturn ρ :=
  let r := monitorResult cfg env
  if cfg.returnRawResult then
    match r.status, r.result with
    | Status.success, some v => MonitorReturn.raw v
    | _, _ => MonitorReturn.envelope r
  else
    MonitorReturn.envelope r

/-! ## Concrete instances used by the witnesses (mirroring the tests) -/

/-- The `add` callable of `tests/test_monitor.py::test_basic_monitoring`,
with a sampler that succeeds. -/
def addEnv : CallEnv (Nat × Nat) Nat where
  args := (2, 3)
  inputCheck := fun _ => []
  outputCheck := fun _ => []
  call := fun p => Except.ok (p.1 + p.2)
  sampleBefore := some ⟨1000, 5⟩
  sampleAfter := some ⟨1500, 7⟩
  samplePeak := some 1600
  elapsed := 1
  functionName := "add"
  timestamp := "2026-01-01T00:00:00"

/-- The `divide` callable of `tests/test_monitor.py::test_function_with_error`,
called at `(10, 0)` so that it raises `Division by zero`. -/
def divideEnv : CallEnv (Nat × Nat) Nat where
  args := (10, 0)
  inputCheck := fun _ => []
  outputCheck := fun _ => []
  call := fun p => if p.2 = 0 then Except.error "Division by zero" else Except.ok (p.1 / p.2)
  sampleBefore := some ⟨1000, 5⟩
  sampleAfter := some ⟨1500, 7⟩
  samplePeak := some 1600
  elapsed := 1
  functionName := "divide"
  timestamp := "2026-01-01T00:00:00"

/-- The `test_func` callable of
`tests/test_monitor.py::test_memory_monitoring_disabled`: a non-failing
callable whose resource sampler fails on every sample. -/
def failingSamplerEnv : CallEnv Nat String where
  args := 0
  inputCheck := fun _ => []
  outputCheck := fun _ => []
  call := fun _ => Except.ok "test"
  sampleBefore := none
  sampleAfter := none
  samplePeak := none
  elapsed := 0
  functionName := "test_func"
  timestamp := "2026-01-01T00:00:00"

/-- An invocation whose declared-schema argument fails input validation. -/
def invalidInputEnv : CallEnv Nat Nat where
  args := 7
  inputCheck := fun _ => ["Input validation failed"]
  outputCheck := fun _ => []
  call := fun n => Except.ok (n + 1)
  sampleBefore := some ⟨1000, 5⟩
  sampleAfter := some ⟨1500, 7⟩
  samplePeak := some 1600
  elapsed := 1
  functionName := "process_user"
  timestamp := "2026-01-01T00:00:00"

/-- The default configuration with `returnRawResult` switched on, as in
`tests/test_monitor.py::test_return_raw_result`. -/
def rawConfig : MonitorConfig :=
  { MonitorConfig.fromDefaults with returnRawResult := true }

/-! ## Behaviour of one monitored invocation -/

/-- When input validation passes and the callable raises, the envelope is the
error record built from the exception message (spec section 4.2 step 5). -/
theorem monitorResult_raise_eq {α ρ : Type} (cfg : MonitorConfig) (env : CallEnv α ρ)
    (msg : String)
    (hin : (if cfg.validateInput then env.inputCheck env.args else []) = [])
    (hc : env.call env.args = Except.error msg) :
    monitorResult cfg env =
      ExecutionResult.createError [msg] env.elapsed
        (buildMemoryUsage (takeSnapshot cfg env.sampleBefore)
          (takeSnapshot cfg env.sampleAfter) (takePeak cfg env.samplePeak))
        (takeSnapshot cfg env.sampleAfter).cpuPercent env.functionName env.timestamp := by
  unfold monitorResult
  rw [hin, hc]
  rfl

/-- When input validation passes, the callable returns `v` and output
validation passes, the envelope is the success record carrying `v`
(spec section 4.2 steps 6-7). -/
theorem monitorResult_success_eq {α ρ : Type} (cfg : MonitorConfig) (env : CallEnv α ρ)
    (v : ρ)
    (hin : (if cfg.validateInput then env.inputCheck env.args else []) = [])
    (hc : env.call env.args = Except.ok v)
    (hout : (if cfg.validateOutput then env.outputCheck v else []) = []) :
    monitorResult cfg env =
      ExecutionResult.createSuccess v env.elapsed
        (buildMemoryUsage (takeSnapshot cfg env.sampleBefore)
          (takeSnapshot cfg env.sampleAfter) (takePeak cfg env.samplePeak))
        (takeSnapshot cfg env.sampleAfter).cpuPercent env.functionName env.timestamp := by
  unfold monitorResult
  rw [hin, hc]
  simp only [hout, if_pos]

/-- A status-`error` envelope is returned as an envelope whatever the
raw-result mode is (spec section 4.2 step 9). -/
theorem monitorCall_of_error {α ρ : Type} (cfg : MonitorConfig) (env : CallEnv α ρ)
    (h : (monitorResult cfg env).status = Status.error) :
    monitorCall cfg env = MonitorReturn.envelope (monitorResult cfg env) := by
  unfold monitorCall
  cases hr : cfg.returnRawResult with
  | false => rfl
  | true =>
      simp only [if_pos]
      rw [h]

/-- In raw-result mode a success envelope is unwrapped to its bare value
(spec section 4.2 step 9). -/
theorem monitorCall_raw_of_success {α ρ : Type} (cfg : MonitorConfig) (env : CallEnv α ρ)
    (v : ρ) (hraw : cfg.returnRawResult = true)
    (hs : (monitorResult cfg env).status = Status.success)
    (hv : (monitorResult cfg env).result = some v) :
    monitorCall cfg env = MonitorReturn.raw v := by
  unfold monitorCall
  rw [hraw]
  simp only [if_pos]
  rw [hs, hv]

/-- Claim C1: a wrapped callable that raises yields an `error` envelope with a null
result and the exception message among the errors; the exception never
reaches the wrapper's caller (the wrapper's return is the envelope, in raw
mode too). -/
theorem raised_fault_becomes_error_envelope {α ρ : Type} (cfg : MonitorConfig)
    (env : CallEnv α ρ) (msg : String)
    (hin : (if cfg.validateInput then env.inputCheck env.args else []) = [])
    (hc : env.call env.args = Except.error msg) :
    monitorCall cfg env = MonitorReturn.envelope (monitorResult cfg env) ∧
    (monitorResult cfg env).status = Status.error ∧
    (monitorResult cfg env).result = none ∧
    (monitorResult cfg env).errors = some [msg] := by
  have h := monitorResult_raise_eq cfg env msg hin hc
  refine ⟨monitorCall_of_error cfg env ?_, ?_, ?_, ?_⟩ <;> rw [h] <;> rfl

/-- Witness for C1: `divide(10, 0)` raises `Division by zero` and the wrapper
returns the error envelope. -/
theorem raised_fault_becomes_error_envelope_witness :
    monitorCall MonitorConfig.fromDefaults divideEnv =
      MonitorReturn.envelope (monitorResult MonitorConfig.fromDefaults divideEnv) ∧
    (monitorResult MonitorConfig.fromDefaults divideEnv).status = Status.error ∧
    (monitorResult MonitorConfig.fromDefaults divideEnv).result = none ∧
    (monitorResult MonitorConfig.fromDefaults divideEnv).errors = some ["Division by zero"] :=
  raised_fault_becomes_error_envelope MonitorConfig.fromDefaults divideEnv
    "Division by zero" rfl rfl

/-- Claim C2: a wrapped callable that returns normally (and passes output
validation when enabled) yields a `success` envelope with null errors whose
result is the value the callable actually returned. -/
theorem normal_return_success_envelope {α ρ : Type} (cfg : MonitorConfig)
    (env : CallEnv α ρ) (v : ρ)
    (hin : (if cfg.validateInput then env.inputCheck env.args else []) = [])
    (hc : env.call env.args = Except.ok v)
    (hout : (if cfg.validateOutput then env.outputCheck v else []) = []) :
    (monitorResult cfg env).status = Status.success ∧
    (monitorResult cfg env).errors = none ∧
    (monitorResult cfg env).result = some v := by
  have h := monitorResult_success_eq cfg env v hin hc hout
  refine ⟨?_, ?_, ?_⟩ <;> rw [h] <;> rfl

/-- Witness for C2: `add(2, 3)` yields a success envelope with result `5`. -/
theorem normal_return_success_envelope_witness :
    (monitorResult MonitorConfig.fromDefaults addEnv).status = Status.success ∧
    (monitorResult MonitorConfig.fromDefaults addEnv).errors = none ∧
    (monitorResult MonitorConfig.fromDefaults addEnv).result = some 5 :=
  normal_return_success_envelope MonitorConfig.fromDefaults addEnv 5 rfl rfl rfl

/-- Claim C3: with `returnRawResult` true, every successful invocation returns the
bare value of the wrapped callable, while every raising invocation still
returns the structured error envelope rather than a raised fault. -/
theorem raw_result_mode_success_bare_error_enveloped {α ρ : Type}
    (cfg : MonitorConfig) (hraw : cfg.returnRawResult = true) :
    (∀ (env : CallEnv α ρ) (v : ρ),
        (if cfg.validateInput then env.inputCheck env.args else []) = [] →
        env.call env.args = Except.ok v →
        (if cfg.validateOutput then env.outputCheck v else []) = [] →
        monitorCall cfg env = MonitorReturn.raw v) ∧
    (∀ (env : CallEnv α ρ) (msg : String),
        (if cfg.validateInput then env.inputCheck env.args else []) = [] →
        env.call env.args = Except.error msg →
        monitorCall cfg env = MonitorReturn.envelope (monitorResult cfg env) ∧
        (monitorResult cfg env).status = Status.error ∧
        (monitorResult cfg env).result = none ∧
        (monitorResult cfg env).errors = some [msg]) := by
  constructor
  · intro env v hin hc hout
    have h := monitorResult_success_eq cfg env v hin hc hout
    exact monitorCall_raw_of_success cfg env v hraw (by rw [h]; rfl) (by rw [h]; rfl)
  · intro env msg hin hc
    have h := monitorResult_raise_eq cfg env msg hin hc
    refine ⟨monitorCall_of_error cfg env ?_, ?_, ?_, ?_⟩ <;> rw [h] <;> rfl

/-- Witness for C3: in raw-result mode `add(2, 3)` returns the bare `5` while
`divide(10, 0)` returns the structured error envelope. -/
theorem raw_result_mode_witness :
    monitorCall rawConfig addEnv = MonitorReturn.raw 5 ∧
    monitorCall rawConfig divideEnv =
      MonitorReturn.envelope (monitorResult rawConfig divideEnv) ∧
    (monitorResult rawConfig divideEnv).status = Status.error :=
  ⟨(raw_result_mode_success_bare_error_enveloped rawConfig rfl).1 addEnv 5 rfl rfl rfl,
   ((raw_result_mode_success_bare_error_enveloped rawConfig rfl).2 divideEnv
      "Division by zero" rfl rfl).1,
   ((raw_result_mode_success_bare_error_enveloped rawConfig rfl).2 divideEnv
      "Division by zero" rfl rfl).2.1⟩

/-- The envelope built on input-validation failure depends only on the
verdict and the identity strings, not on the callable (spec section 4.2
step 2). -/
theorem monitorResult_input_failure_eq {α ρ : Type} (cfg : MonitorConfig)
    (env : CallEnv α ρ) (hv : cfg.validateInput = true)
    (hne : env.inputCheck env.args ≠ []) :
    monitorResult cfg env =
      ExecutionResult.createError (env.inputCheck env.args) 0
        (buildMemoryUsage zeroSnapshot zeroSnapshot 0) 0
        env.functionName env.timestamp := by
  unfold monitorResult
  rw [hv]
  simp only [if_true, if_neg hne]

/-- Claim C4: when input validation is enabled and a declared-schema argument fails
it, the wrapper returns an error envelope carrying the validation error
list, and the wrapped callable is never invoked: the outcome is identical
for every possible callable body. -/
theorem input_validation_failure_skips_call {α ρ : Type} (cfg : MonitorConfig)
    (env : CallEnv α ρ) (hv : cfg.validateInput = true)
    (hne : env.inputCheck env.args ≠ []) :
    (monitorResult cfg env).status = Status.error ∧
    (monitorResult cfg env).errors = some (env.inputCheck env.args) ∧
    ∀ g : α → Except String ρ,
      monitorResult cfg { env with call := g } = monitorResult cfg env ∧
      monitorCall cfg { env with call := g } = monitorCall cfg env := by
  have h := monitorResult_input_failure_eq cfg env hv hne
  refine ⟨by rw [h]; rfl, by rw [h]; rfl, fun g => ?_⟩
  have h2 := monitorResult_input_failure_eq cfg { env with call := g } hv hne
  have hres : monitorResult cfg { env with call := g } = monitorResult cfg env := by
    rw [h, h2]
  exact ⟨hres, by unfold monitorCall; rw [hres]⟩

/-- Witness for C4: with a failing input validation the envelope is an error
carrying the validation message, and replacing the callable body changes
nothing. -/
theorem input_validation_failure_skips_call_witness :
    (monitorResult MonitorConfig.fromDefaults invalidInputEnv).status = Status.error ∧
    (monitorResult MonitorConfig.fromDefaults invalidInputEnv).errors =
      some ["Input validation failed"] ∧
    monitorCall MonitorConfig.fromDefaults { invalidInputEnv with call := fun _ => Except.ok 999 } =
      monitorCall MonitorConfig.fromDefaults invalidInputEnv := by
  have h := input_validation_failure_skips_call MonitorConfig.fromDefaults invalidInputEnv
    rfl (by decide)
  exact ⟨h.1, h.2.1, (h.2.2 _).2⟩

/-- Sampling degrades to the zero snapshot when the sampler fails. -/
theorem takeSnapshot_none (cfg : MonitorConfig) :
    takeSnapshot cfg none = zeroSnapshot := by
  unfold takeSnapshot
  split <;> rfl

/-- Peak sampling degrades to zero when the sampler fails. -/
theorem takePeak_none (cfg : MonitorConfig) : takePeak cfg none = 0 := by
  unfold takePeak
  split <;> rfl

/-- Claim C8: if the resource sampler fails on every sample, a non-failing
monitored invocation still completes with status `success` and its memory
usage is all zeroes (`before = after = peak = delta = 0`); the sampler
failure is never surfaced. -/
theorem sampler_failure_zeroes_memory {α ρ : Type} (cfg : MonitorConfig)
    (env : CallEnv α ρ) (v : ρ)
    (hb : env.sampleBefore = none) (ha : env.sampleAfter = none)
    (hp : env.samplePeak = none)
    (hin : (if cfg.validateInput then env.inputCheck env.args else []) = [])
    (hc : env.call env.args = Except.ok v)
    (hout : (if cfg.validateOutput then env.outputCheck v else []) = []) :
    (monitorResult cfg env).status = Status.success ∧
    (monitorResult cfg env).memoryUsage = ⟨0, 0, 0, 0⟩ := by
  have h := monitorResult_success_eq cfg env v hin hc hout
  rw [h, hb, ha, hp, takeSnapshot_none, takePeak_none]
  exact ⟨rfl, by simp [ExecutionResult.createSuccess, buildMemoryUsage, zeroSnapshot]⟩

/-- Witness for C8: with every sample failing, `test_func` still succeeds and
reports all-zero memory usage. -/
theorem sampler_failure_zeroes_memory_witness :
    (monitorResult MonitorConfig.fromDefaults failingSamplerEnv).status = Status.success ∧
    (monitorResult MonitorConfig.fromDefaults failingSamplerEnv).memoryUsage = ⟨0, 0, 0, 0⟩ :=
  sampler_failure_zeroes_memory MonitorConfig.fromDefaults failingSamplerEnv
    "test" rfl rfl rfl rfl rfl rfl

/-! ## Configuration resolution and update -/

/-- An instance layer overriding only the log level to DEBUG. -/
def instanceDebug : PartialConfig := { logLevel := some LogLevel.debug }

/-- A call layer overriding only the log level to WARN. -/
def callWarn : PartialConfig := { logLevel := some LogLevel.warn }

/-- Claim C6: effective configuration is resolved strictly default → instance →
call, each later layer replacing exactly the fields it explicitly provides;
in particular default `logLevel = INFO` overridden by an instance `DEBUG`
resolves to `DEBUG`, and an additional call-level `WARN` makes it `WARN`. -/
theorem config_resolution_precedence :
    (∀ (d : MonitorConfig) (i c : PartialConfig),
        (resolve d i c).validateInput = c.validateInput.getD (i.validateInput.getD d.validateInput) ∧
        (resolve d i c).validateOutput = c.validateOutput.getD (i.validateOutput.getD d.validateOutput) ∧
        (resolve d i c).logExecution = c.logExecution.getD (i.logExecution.getD d.logExecution) ∧
        (resolve d i c).returnRawResult = c.returnRawResult.getD (i.returnRawResult.getD d.returnRawResult) ∧
        (resolve d i c).logLevel = c.logLevel.getD (i.logLevel.getD d.logLevel) ∧
        (resolve d i c).logToFile = c.logToFile.getD (i.logToFile.getD d.logToFile) ∧
        (resolve d i c).logFilePath = c.logFilePath.getD (i.logFilePath.getD d.logFilePath) ∧
        (resolve d i c).enableMemoryMonitoring =
          c.enableMemoryMonitoring.getD (i.enableMemoryMonitoring.getD d.enableMemoryMonitoring) ∧
        (resolve d i c).enableCpuMonitoring =
          c.enableCpuMonitoring.getD (i.enableCpuMonitoring.getD d.enableCpuMonitoring)) ∧
    MonitorConfig.fromDefaults.logLevel = LogLevel.info ∧
    (resolve MonitorConfig.fromDefaults instanceDebug emptyLayer).logLevel = LogLevel.debug ∧
    (resolve MonitorConfig.fromDefaults instanceDebug callWarn).logLevel = LogLevel.warn :=
  ⟨fun _ _ _ => ⟨rfl, rfl, rfl, rfl, rfl, rfl, rfl, rfl, rfl⟩, rfl, rfl, rfl⟩

/-- An update mapping with no unrecognized entry has no first unknown key. -/
theorem firstUnknown_eq_none {fields : List UpdateEntry}
    (h : ∀ e ∈ fields, e.isUnknown = false) : firstUnknown fields = none := by
  induction fields with
  | nil => rfl
  | cons e es ih =>
      cases e with
      | unknownKey k => exact absurd (h _ (List.mem_cons_self _ _)) (by simp [UpdateEntry.isUnknown])
      | validateInput b => exact ih fun x hx => h x (List.mem_cons_of_mem _ hx)
      | validateOutput b => exact ih fun x hx => h x (List.mem_cons_of_mem _ hx)
      | logExecution b => exact ih fun x hx => h x (List.mem_cons_of_mem _ hx)
      | returnRawResult b => exact ih fun x hx => h x (List.mem_cons_of_mem _ hx)
      | logLevel l => exact ih fun x hx => h x (List.mem_cons_of_mem _ hx)
      | logToFile b => exact ih fun x hx => h x (List.mem_cons_of_mem _ hx)
      | logFilePath p => exact ih fun x hx => h x (List.mem_cons_of_mem _ hx)
      | enableMemoryMonitoring b => exact ih fun x hx => h x (List.mem_cons_of_mem _ hx)
      | enableCpuMonitoring b => exact ih fun x hx => h x (List.mem_cons_of_mem _ hx)

/-- The first unknown key of a mapping does occur in it. -/
theorem firstUnknown_mem {fields : List UpdateEntry} {k : String}
    (h : firstUnknown fields = some k) : UpdateEntry.unknownKey k ∈ fields := by
  induction fields with
  | nil => exact absurd h (by simp [firstUnknown])
  | cons e es ih =>
      cases e with
      | unknownKey k2 =>
          have : k2 = k := by
            have := h
            unfold firstUnknown at this
            exact Option.some.inj this
          rw [this] at *
          exact List.mem_cons_self _ _
      | validateInput b => exact List.mem_cons_of_mem _ (ih h)
      | validateOutput b => exact List.mem_cons_of_mem _ (ih h)
      | logExecution b => exact List.mem_cons_of_mem _ (ih h)
      | returnRawResult b => exact List.mem_cons_of_mem _ (ih h)
      | logLevel l => exact List.mem_cons_of_mem _ (ih h)
      | logToFile b => exact List.mem_cons_of_mem _ (ih h)
      | logFilePath p => exact List.mem_cons_of_mem _ (ih h)
      | enableMemoryMonitoring b => exact List.mem_cons_of_mem _ (ih h)
      | enableCpuMonitoring b => exact List.mem_cons_of_mem _ (ih h)

/-- A mapping containing an unknown key has a first unknown key. -/
theorem firstUnknown_isSome {fields : List UpdateEntry} {k : String}
    (h : UpdateEntry.unknownKey k ∈ fields) : (firstUnknown fields).isSome := by
  induction fields with
  | nil => exact absurd h (List.not_mem_nil _)
  | cons e es ih =>
      cases e with
      | unknownKey k2 => rfl
      | validateInput b =>
          exact ih (by cases h with | tail _ h2 => exact h2)
      | validateOutput b =>
          exact ih (by cases h with | tail _ h2 => exact h2)
      | logExecution b =>
          exact ih (by cases h with | tail _ h2 => exact h2)
      | returnRawResult b =>
          exact ih (by cases h with | tail _ h2 => exact h2)
      | logLevel l =>
          exact ih (by cases h with | tail _ h2 => exact h2)
      | logToFile b =>
          exact ih (by cases h with | tail _ h2 => exact h2)
      | logFilePath p =>
          exact ih (by cases h with | tail _ h2 => exact h2)
      | enableMemoryMonitoring b =>
          exact ih (by cases h with | tail _ h2 => exact h2)
      | enableCpuMonitoring b =>
          exact ih (by cases h with | tail _ h2 => exact h2)

/-- Claim C7: an update mapping containing an unrecognized key fails with an error
naming an unknown configuration key of the mapping and leaves the receiver's
state unchanged — no recognized key of the same mapping is applied either. -/
theorem update_unknown_key_atomic (c : MonitorConfig) (fields : List UpdateEntry)
    (k : String) (h : UpdateEntry.unknownKey k ∈ fields) :
    (c.update fields).1 = c ∧
    ∃ k2, (c.update fields).2 = some (ConfigError.unknownConfigurationKey k2) ∧
      UpdateEntry.unknownKey k2 ∈ fields := by
  obtain ⟨k2, hk2⟩ := Option.isSome_iff_exists.mp (firstUnknown_isSome h)
  unfold MonitorConfig.update
  rw [hk2]
  exact ⟨rfl, k2, rfl, firstUnknown_mem hk2⟩

/-- Witness for C7: an update of the default configuration mixing a recognized
override with `invalid_key` fails naming the unknown key and applies
nothing. -/
theorem update_unknown_key_atomic_witness :
    (MonitorConfig.fromDefaults.update
        [UpdateEntry.logLevel LogLevel.debug, UpdateEntry.unknownKey "invalid_key"]).1 =
      MonitorConfig.fromDefaults ∧
    ∃ k2, (MonitorConfig.fromDefaults.update
        [UpdateEntry.logLevel LogLevel.debug, UpdateEntry.unknownKey "invalid_key"]).2 =
        some (ConfigError.unknownConfigurationKey k2) ∧
      UpdateEntry.unknownKey k2 ∈
        [UpdateEntry.logLevel LogLevel.debug, UpdateEntry.unknownKey "invalid_key"] :=
  update_unknown_key_atomic MonitorConfig.fromDefaults
    [UpdateEntry.logLevel LogLevel.debug, UpdateEntry.unknownKey "invalid_key"]
    "invalid_key" (by simp)

/-- Claim C9: updating a configuration with an empty set of fields succeeds and
leaves every field unchanged. -/
theorem update_empty_identity (c : MonitorConfig) : c.update [] = (c, none) := rfl

/-- Applying one entry changes exactly the field it targets. -/
theorem getField_applyEntry (c : MonitorConfig) (e : UpdateEntry) (f : FieldName) :
    getField (applyEntry c e) f =
      if e.target = some f then e.supplied else getField c f := by
  cases e <;> cases f <;>
    simp [applyEntry, getField, UpdateEntry.target, UpdateEntry.supplied]

/-- Unfolding equation of `lastAssign` on a non-empty mapping. -/
theorem lastAssign_cons (e : UpdateEntry) (es : List UpdateEntry) (f : FieldName) :
    lastAssign (e :: es) f =
      match lastAssign es f with
      | some v => some v
      | none => if e.target = some f then some e.supplied else none := rfl

/-- Folding an update mapping over a configuration realizes, on each field,
the last assignment the mapping makes to it (or keeps the prior value). -/
theorem getField_foldl (fields : List UpdateEntry) (c : MonitorConfig) (f : FieldName) :
    getField (fields.foldl applyEntry c) f =
      (lastAssign fields f).getD (getField c f) := by
  induction fields generalizing c with
  | nil => rfl
  | cons e es ih =>
      rw [List.foldl_cons, ih, getField_applyEntry, lastAssign_cons]
      cases lastAssign es f with
      | some v => rfl
      | none =>
          by_cases ht : e.target = some f
          · simp [ht]
          · simp [ht]

/-- Claim C10: an update mapping whose keys are all recognized succeeds; afterwards
each field named by the mapping holds the (last) supplied value, every field
the mapping does not name retains its prior value, and the change lands on
the receiver's own state (mutation modelled as state passing). -/
theorem update_recognized_applies (c : MonitorConfig) (fields : List UpdateEntry)
    (h : ∀ e ∈ fields, e.isUnknown = false) :
    (c.update fields).2 = none ∧
    ∀ f, getField (c.update fields).1 f = (lastAssign fields f).getD (getField c f) := by
  unfold MonitorConfig.update
  rw [firstUnknown_eq_none h]
  exact ⟨rfl, fun f => getField_foldl fields c f⟩

/-- Witness for C10: updating the defaults with `log_level` and
`return_raw_result` (as in `tests/test_config.py::test_config_update`)
succeeds, sets both named fields and keeps an unnamed one. -/
theorem update_recognized_applies_witness :
    (MonitorConfig.fromDefaults.update
        [UpdateEntry.logLevel LogLevel.info, UpdateEntry.returnRawResult true]).2 = none ∧
    getField (MonitorConfig.fromDefaults.update
        [UpdateEntry.logLevel LogLevel.info, UpdateEntry.returnRawResult true]).1
      FieldName.logLevel = ConfigValue.level LogLevel.info ∧
    getField (MonitorConfig.fromDefaults.update
        [UpdateEntry.logLevel LogLevel.info, UpdateEntry.returnRawResult true]).1
      FieldName.returnRawResult = ConfigValue.bool true ∧
    getField (MonitorConfig.fromDefaults.update
        [UpdateEntry.logLevel LogLevel.info, UpdateEntry.returnRawResult true]).1
      FieldName.validateInput = ConfigValue.bool true := by
  have h := update_recognized_applies MonitorConfig.fromDefaults
    [UpdateEntry.logLevel LogLevel.info, UpdateEntry.returnRawResult true] (by decide)
  refine ⟨h.1, ?_, ?_, ?_⟩
  · rw [h.2 FieldName.logLevel]; rfl
  · rw [h.2 FieldName.returnRawResult]; rfl
  · rw [h.2 FieldName.validateInput]; rfl

/-! ## The envelope invariant -/

/-- Counterexample for C5: the error constructor applied to an empty message list
produces an envelope whose status is `error` while its errors field, though
non-null, is empty — the claimed iff fails for that construction. -/
theorem createError_empty_violates_invariant :
    ¬ (ExecutionResult.createError ([] : List String) 0 ⟨0, 0, 0, 0⟩ 0
        "f" "ts" : ExecutionResult Nat).invariant := by
  intro h
  obtain ⟨l, hl, hne⟩ := h.1.mp rfl
  exact hne (Option.some.inj hl).symm

/-- Claim C5 as amended: every envelope built by the success constructor, and every
envelope built by the error constructor from at least one message, satisfies
the invariant: status is `error` iff errors is non-null and non-empty, and
result and errors are never both present. -/
theorem constructor_invariant {ρ : Type} :
    (∀ (v : ρ) (t : Nat) (mu : MemoryUsage) (cpu : Nat) (n ts : String),
        (ExecutionResult.createSuccess v t mu cpu n ts).invariant) ∧
    (∀ (errs : List String) (t : Nat) (mu : MemoryUsage) (cpu : Nat) (n ts : String),
        errs ≠ [] →
        (ExecutionResult.createError errs t mu cpu n ts : ExecutionResult ρ).invariant) := by
  constructor
  · intro v t mu cpu n ts
    constructor
    · constructor
      · intro h
        exact absurd h (by simp [ExecutionResult.createSuccess])
      · rintro ⟨l, hl, -⟩
        exact absurd hl (by simp [ExecutionResult.createSuccess])
    · rintro ⟨-, hsome⟩
      simp [ExecutionResult.createSuccess] at hsome
  · intro errs t mu cpu n ts hne
    constructor
    · constructor
      · intro _
        exact ⟨errs, rfl, hne⟩
      · intro _
        rfl
    · rintro ⟨hsome, -⟩
      simp [ExecutionResult.createError] at hsome

/-- Witness for C5: the test's concrete success and error envelopes both satisfy
the invariant. -/
theorem constructor_invariant_witness :
    (ExecutionResult.createSuccess (5 : Nat) 1 ⟨1000, 1500, 1600, 500⟩ 15
      "test_func" "ts").invariant ∧
    (ExecutionResult.createError ["Error message 1", "Error message 2"] 1
      ⟨1000, 1000, 1000, 0⟩ 10 "failing_func" "ts" : ExecutionResult Nat).invariant :=
  ⟨constructor_invariant.1 5 1 ⟨1000, 1500, 1600, 500⟩ 15 "test_func" "ts",
   constructor_invariant.2 ["Error message 1", "Error message 2"] 1
    ⟨1000, 1000, 1000, 0⟩ 10 "failing_func" "ts" (by decide)⟩

end FunctionMonitor
